import Mathlib

/-!
Verification of the CodeRefactor backend: a shallow embedding of
`server/services/groqService.js`, `server/routes/refactor.js` and the server
entry file, together with theorems about the embedded operations.

Modelling conventions: JavaScript strings are Lean `String` (lists of
characters); JavaScript numbers are `Nat`/`Int`/`Rat` (exact arithmetic; the
literal `0.8` is the exact rational `4/5`); an absent or falsy optional value
is `none`, matching the JS operators `?.` and `||` as the code uses them; the
outbound HTTP call is an oracle parameter mapping the request prompt to an
outcome, and route handlers take the refactor service as an oracle parameter.
A JS function that cannot throw is modelled as a total function.
-/

namespace CodeRefactor

/-- Backquote character (the markdown fence character), via its code point. -/
def backquote : Char := Char.ofNat 96

/-- Word character, as matched by the JS regex class `[\w]`. -/
def isWordChar (c : Char) : Bool := c.isAlphanum || c = '_'

/-- Whitespace stripped by JS `String.prototype.trim` (ASCII part). -/
def isJsWhitespace (c : Char) : Bool :=
  c = ' ' || c = '\t' || c = '\n' || c = '\r' || c = Char.ofNat 11 || c = Char.ofNat 12

/-- JS `trim` on a character list: drop whitespace from both ends. -/
def jsTrimList (l : List Char) : List Char :=
  ((l.dropWhile isJsWhitespace).reverse.dropWhile isJsWhitespace).reverse

/-- JS `String.prototype.trim`. -/
def jsTrim (s : String) : String := String.mk (jsTrimList s.data)

/-- Substring test on character lists (JS `String.prototype.includes`). -/
def containsSub : List Char → List Char → Bool
  | [], pat => pat.isEmpty
  | c :: tl, pat => pat.isPrefixOf (c :: tl) || containsSub tl pat

/-- JS `s.includes(pat)`. -/
def strContains (s pat : String) : Bool := containsSub s.data pat.data

/-- Fuel-driven count of non-overlapping leftmost occurrences of `pat`.
The fuel is the list length; every step consumes at least one character. -/
def countOccAux (pat : List Char) : Nat → List Char → Nat
  | 0, _ => 0
  | fuel + 1, l =>
    match l with
    | [] => 0
    | _ :: tl =>
      if !pat.isEmpty && pat.isPrefixOf l then
        countOccAux pat fuel (l.drop pat.length) + 1
      else
        countOccAux pat fuel tl

/-- Number of matches of the global regex for a fixed literal pattern, as in
JS `(s.match(/pat/g) || []).length`: non-overlapping, leftmost-first. -/
def strCount (s pat : String) : Nat := countOccAux pat.data s.data.length s.data

/-- JS `s.endsWith(post)`. -/
def jsEndsWith (s post : String) : Bool := post.data.isSuffixOf s.data

/-- JS `s.toLowerCase()` (ASCII letters). -/
def lowerStr (s : String) : String := String.mk (s.data.map Char.toLower)

/-- JS `s.split('\n')` on a character list: every newline separates, empty
pieces are kept, and the empty string yields one empty piece. -/
def splitOnNl : List Char → List (List Char)
  | [] => [[]]
  | c :: tl =>
    let rest := splitOnNl tl
    if c = '\n' then [] :: rest
    else
      match rest with
      | [] => [[c]]
      | h :: t => (c :: h) :: t

/-- Non-blank line count: `code.split('\n').filter(line => line.trim()).length`
from `calculateMetrics` in groqService.js. -/
def countNonBlankLines (s : String) : Nat :=
  ((splitOnNl s.data).filter (fun line => jsTrimList line ≠ [])).length

/-- Node `path.extname` on a basename: the suffix from the last dot, empty
when there is no dot or the only dot starts the name. -/
def extnameStr (s : String) : String :=
  let r := s.data.reverse
  match r.findIdx? (fun c => c = '.') with
  | none => ""
  | some k => if k + 1 < s.data.length then String.mk ((r.take (k + 1)).reverse) else ""

/-- Character run following a leading triple backquote (the `[\w]*` tag). -/
def fenceTag (l : List Char) : List Char := (l.drop 3).dropWhile isWordChar

/-- Does the JS regex pattern for a leading fence with optional language tag
followed by a newline match at the start of the text? -/
def hasLeadFence (l : List Char) : Bool :=
  l.take 3 == [backquote, backquote, backquote] &&
    (match fenceTag l with
     | '\n' :: _ => true
     | _ => false)

/-- Effect of `.replace` with the leading-fence regex: remove the opening
fence, the tag and the newline when the pattern matches, else no change. -/
def stripLeadFence (l : List Char) : List Char :=
  if hasLeadFence l then (fenceTag l).tail else l

/-- Trailing-fence pattern matching at the very end of the text. -/
def hasTrailFenceEnd (l : List Char) : Bool :=
  [backquote, backquote, backquote, '\n'].isPrefixOf l.reverse

/-- Trailing-fence pattern matching just before a final newline (JS `$`
also anchors before a string-final newline). -/
def hasTrailFencePreNl (l : List Char) : Bool :=
  ['\n', backquote, backquote, backquote, '\n'].isPrefixOf l.reverse

/-- Effect of `.replace` with the trailing-fence regex: the two anchor
positions are mutually exclusive, so at most one removal happens. -/
def stripTrailFence (l : List Char) : List Char :=
  if hasTrailFenceEnd l then (l.reverse.drop 4).reverse
  else if hasTrailFencePreNl l then (l.reverse.drop 5).reverse ++ ['\n']
  else l

/-- The markdown-fence cleanup applied to the provider reply in
`refactorCode`: strip a leading fence, strip a trailing fence, trim. -/
def cleanupList (l : List Char) : List Char :=
  jsTrimList (stripTrailFence (stripLeadFence l))

/-- String-level cleanup step (`cleanedCode` in groqService.js). -/
def cleanupStep (s : String) : String := String.mk (cleanupList s.data)

/-- Provider token-usage statistics, passed through opaquely. -/
structure TokenUsage where
  promptTokens : Nat
  completionTokens : Nat
  totalTokens : Nat
deriving DecidableEq

/-- Metrics computed by `calculateMetrics`. -/
structure Metrics where
  originalLines : Nat
  refactoredLines : Nat
  linesReduced : Int
  compressionRatio : Rat
  qualityScore : Rat
deriving DecidableEq

/-- The `code` field of a failure: the provider HTTP status when a response
was received, else the string sentinel `UNKNOWN_ERROR`. -/
inductive ErrCode where
  | httpStatus (n : Nat)
  | unknownError
deriving DecidableEq

/-- The `error` object of a failed `refactorCode` result. -/
structure ErrorInfo where
  message : String
  code : ErrCode
deriving DecidableEq

/-- Tagged result of `GroqService.refactorCode`. -/
inductive RefactorResult where
  | success (refactoredCode : String) (metrics : Metrics) (tokenUsage : TokenUsage)
  | failure (error : ErrorInfo)
deriving DecidableEq

/-- Optional prompt settings. -/
structure Settings where
  addComments : Bool
  improveNaming : Bool
  removeDeadCode : Bool
deriving DecidableEq

/-- A failed axios call. `message` is the transport-level error text;
`status` is `error.response?.status` (`none` when no HTTP response was
received); `dataErrorMessage` is the truthy value of the optional chain
`error.response?.data?.error?.message` (`none` when absent or falsy). -/
structure ProviderError where
  message : String
  status : Option Nat
  dataErrorMessage : Option String
deriving DecidableEq

/-- Outcome of the outbound chat-completion HTTP call: a 2xx reply carrying
the first choice text and usage stats, or a failure (network error, non-2xx
response, timeout). -/
inductive ApiOutcome where
  | ok (content : String) (usage : TokenUsage)
  | fail (err : ProviderError)
deriving DecidableEq

/-- Language lookup table of `generateRefactorPrompt`, with the JS `||`
fallback for an unrecognized language. -/
def languageInstruction (language : String) : String :=
  if language = "javascript" then "JavaScript ES6+"
  else if language = "typescript" then "TypeScript with proper type annotations"
  else if language = "react" then "React functional components with hooks"
  else if language = "nodejs" then "Node.js with modern async/await patterns"
  else "JavaScript"

/-- The prompt template of `GroqService.generateRefactorPrompt`. -/
def generateRefactorPrompt (originalCode language : String) (settings : Settings) : String :=
  "You are a world-class senior software engineer who strictly follows modern "
    ++ languageInstruction language
    ++ " best practices. Your task is to refactor the following code snippet to:\n\n1. Fix bad naming conventions (variables, functions, etc.)\n2. Remove any unnecessary or dead code\n3. Improve logic readability and structure\n4. Add meaningful inline comments to explain complex logic\n5. Format the code using Prettier and ESLint rules (Airbnb-style guide)\n6. Convert callbacks to async/await where needed\n7. Make the code modular, readable, and production-ready\n\n"
    ++ (if settings.addComments then "8. Add helpful comments explaining the logic" else "")
    ++ "\n"
    ++ (if settings.improveNaming then "9. Ensure all variables and functions have descriptive names" else "")
    ++ "\n"
    ++ (if settings.removeDeadCode then "10. Remove any unused imports, variables, or functions" else "")
    ++ "\n\nYou MUST return ONLY the refactored code — no explanations or extra text — and preserve the functionality.\n\nOriginal code:\n```"
    ++ language ++ "\n" ++ originalCode ++ "\n```\n\nRefactored code:"

/-- Heuristic quality score of `GroqService.estimateQualityScore`: baseline
3.0, three fixed bonuses accrued sequentially, then a clamp to [1, 5].
The JS literal `0.8` is the exact rational `4/5`; for the length comparison
this agrees with double-precision evaluation at every boundary. -/
def estimateQualityScore (originalCode refactoredCode : String) : Rat :=
  let base : Rat := 3
  let s1 :=
    if (strContains refactoredCode "async" && strContains refactoredCode "await")
        && strContains originalCode "callback" then base + 1 / 2 else base
  let s2 :=
    if strCount originalCode "//" < strCount refactoredCode "//" then s1 + 3 / 10 else s1
  let s3 :=
    if ((originalCode.length : Rat)) * (4 / 5) < ((refactoredCode.length : Rat)) then
      s2 + 1 / 5
    else s2
  min 5 (max 1 s3)

/-- Metrics of `GroqService.calculateMetrics`. -/
def calculateMetrics (originalCode refactoredCode : String) : Metrics :=
  let originalLines := countNonBlankLines originalCode
  let refactoredLines := countNonBlankLines refactoredCode
  ⟨originalLines, refactoredLines,
    max 0 ((originalLines : Int) - (refactoredLines : Int)),
    if 0 < originalLines then ((refactoredLines : Rat)) / ((originalLines : Rat)) else 1,
    estimateQualityScore originalCode refactoredCode⟩

/-- `GroqService.refactorCode`: build the prompt, call the provider through
the oracle `net`, clean a successful reply, and map a failure to the tagged
result. The function is total: no failure path escapes. -/
def refactorCode (originalCode language : String) (settings : Settings)
    (net : String → ApiOutcome) : RefactorResult :=
  match net (generateRefactorPrompt originalCode language settings) with
  | .ok content usage =>
    let cleanedCode := cleanupStep (jsTrim content)
    .success cleanedCode (calculateMetrics originalCode cleanedCode) usage
  | .fail err =>
    .failure
      ⟨err.dataErrorMessage.getD err.message,
        match err.status with
        | some n => .httpStatus n
        | none => .unknownError⟩

/-- Quality score as the claim words it, bonuses summed over the baseline,
with the length bonus at "at least 80%" (a non-strict comparison). -/
def specQualityScore (originalCode refactoredCode : String) : Rat :=
  min 5 (max 1
    ((3 : Rat)
      + (if (strContains refactoredCode "async" && strContains refactoredCode "await")
            && strContains originalCode "callback" then 1 / 2 else 0)
      + (if strCount originalCode "//" < strCount refactoredCode "//" then 3 / 10 else 0)
      + (if ((originalCode.length : Rat)) * (4 / 5) ≤ ((refactoredCode.length : Rat)) then 1 / 5
          else 0)))

/-- Quality score as amended: identical to `specQualityScore` except that the
length bonus requires strictly more than 80% of the original length. -/
def specQualityScoreStrict (originalCode refactoredCode : String) : Rat :=
  min 5 (max 1
    ((3 : Rat)
      + (if (strContains refactoredCode "async" && strContains refactoredCode "await")
            && strContains originalCode "callback" then 1 / 2 else 0)
      + (if strCount originalCode "//" < strCount refactoredCode "//" then 3 / 10 else 0)
      + (if ((originalCode.length : Rat)) * (4 / 5) < ((refactoredCode.length : Rat)) then 1 / 5
          else 0)))

/-- Language detection of the single-file upload route (`POST /upload`):
suffix checks first, then the filename-substring check, else javascript. -/
def detectUploadLanguage (filename : String) : String :=
  if jsEndsWith filename ".tsx" || jsEndsWith filename ".jsx" then "react"
  else if jsEndsWith filename ".ts" then "typescript"
  else if strContains filename "server" || strContains filename "api" then "nodejs"
  else "javascript"

/-- Upload language detection as the claim words it, one case per clause. -/
def specUploadLanguage (filename : String) : String :=
  if jsEndsWith filename ".tsx" then "react"
  else if jsEndsWith filename ".jsx" then "react"
  else if jsEndsWith filename ".ts" then "typescript"
  else if strContains filename "server" then "nodejs"
  else if strContains filename "api" then "nodejs"
  else "javascript"

/-- An extracted archive entry handed to the batch routes. -/
structure FileEntry where
  name : String
  content : String
deriving DecidableEq

/-- Per-file result entry of the animated batch route. -/
structure BatchEntry where
  name : String
  refactoredCode : String
  error : Option String
deriving DecidableEq

/-- Language derivation shared by both batch routes: lowercased
`path.extname` of the entry name, mapped by extension. -/
def batchLanguage (name : String) : String :=
  if lowerStr (extnameStr name) = ".jsx" ∨ lowerStr (extnameStr name) = ".tsx" then "react"
  else if lowerStr (extnameStr name) = ".ts" then "typescript"
  else if lowerStr (extnameStr name) = ".json" then "json"
  else "javascript"

/-- Batch language derivation as the claim words it: the extension cases of
the single-file upload mapping, plus json. -/
def specBatchLanguage (name : String) : String :=
  if lowerStr (extnameStr name) = ".tsx" then "react"
  else if lowerStr (extnameStr name) = ".jsx" then "react"
  else if lowerStr (extnameStr name) = ".ts" then "typescript"
  else if lowerStr (extnameStr name) = ".json" then "json"
  else "javascript"

/-- One iteration of the animated batch loop (`POST /refactor-zip-animated`):
a usable service result replaces the content; otherwise the original content
is kept and the error message is retained, with the JS `||` fallback to
the text `Unknown error` covering both a falsy message and a success whose
`refactoredCode` is falsy (the empty string). -/
def animatedEntry (svc : String → String → RefactorResult) (f : FileEntry) : BatchEntry :=
  match svc f.content (batchLanguage f.name) with
  | .success rc _ _ =>
    if rc = "" then ⟨f.name, f.content, some "Unknown error"⟩
    else ⟨f.name, rc, none⟩
  | .failure e =>
    ⟨f.name, f.content, some (if e.message = "" then "Unknown error" else e.message)⟩

/-- Response of the animated batch route. -/
inductive AnimatedResponse where
  | badRequest (message : String)
  | serverError (message : String) (details : String)
  | ok (files : List BatchEntry)
deriving DecidableEq

/-- Handler of `POST /refactor-zip-animated`. `none` models a missing or
non-array `files` field. -/
def animatedHandler (files : Option (List FileEntry))
    (svc : String → String → RefactorResult) : AnimatedResponse :=
  match files with
  | none => .badRequest "No files provided"
  | some [] => .badRequest "No files provided"
  | some fs =>
    let results := fs.map (animatedEntry svc)
    if results.all (fun b => b.error.isSome) then
      .serverError "All files failed to refactor"
        (String.intercalate "; " (results.map (fun b => b.error.getD "")))
    else .ok results

/-- Content chosen for an entry by `POST /refactor-zip`: the service result
when it is a success with truthy (non-empty) code, else the original. -/
def zipChoose (svc : String → String → RefactorResult) (f : FileEntry) : String :=
  match svc f.content (batchLanguage f.name) with
  | .success rc _ _ => if rc = "" then f.content else rc
  | .failure _ => f.content

/-- Fixed head of the generated README manifest. -/
def readmeHeader : String :=
  "# Refactored Project\n\nThis project was generated by CodeRefactor AI.\n\n## Files:\n"

/-- Concatenation of a list of strings in order. -/
def concatAll : List String → String
  | [] => ""
  | s :: t => s ++ concatAll t

/-- The per-file loop of `POST /refactor-zip`: accumulates the archive
entries and the README lines in iteration order. -/
def zipLoop (svc : String → String → RefactorResult) :
    List FileEntry → List (String × String) × String
  | [] => ([], "")
  | f :: rest =>
    let rc := zipChoose svc f
    let acc := zipLoop svc rest
    (("src/" ++ f.name, rc) :: acc.1,
      ("- src/" ++ f.name ++ " (" ++ toString rc.length ++ " chars)\n") ++ acc.2)

/-- Response of the archive batch route: a client error, or archive bytes
modelled as the list of (path, content) entries. -/
inductive ZipResponse where
  | badRequest (message : String)
  | archive (entries : List (String × String))
deriving DecidableEq

/-- Handler of `POST /refactor-zip`. -/
def refactorZipHandler (files : Option (List FileEntry))
    (svc : String → String → RefactorResult) : ZipResponse :=
  match files with
  | none => .badRequest "No files provided"
  | some [] => .badRequest "No files provided"
  | some fs =>
    let acc := zipLoop svc fs
    .archive (acc.1 ++ [("README.md", readmeHeader ++ acc.2)])

/-- Response of the single-snippet route `POST /`. -/
inductive SnippetResponse where
  | badRequest (message : String)
  | serverError (message : String) (details : String)
  | ok (refactoredCode : String) (metrics : Metrics) (tokenUsage : TokenUsage)
deriving DecidableEq

/-- Handler of the single-snippet route: the JS guard `!code || !language`
rejects an absent or empty field; otherwise the request is delegated to the
service and its result mapped to the success or error envelope. -/
def snippetHandler (code language : Option String) (settings : Settings)
    (net : String → ApiOutcome) : SnippetResponse :=
  if code.getD "" = "" ∨ language.getD "" = "" then
    .badRequest "Code and language are required"
  else
    match refactorCode (code.getD "") (language.getD "") settings net with
    | .failure e => .serverError "Refactoring failed" e.message
    | .success rc m tu => .ok rc m tu

/-- MIME types accepted by the single-file upload filter. -/
def allowedTypes : List String :=
  ["application/javascript", "text/javascript", "text/plain"]

/-- File extensions accepted by the single-file upload filter. -/
def allowedExtensions : List String := [".js", ".jsx", ".ts", ".tsx", ".json"]

/-- multer `fileFilter` of the single-file upload. -/
def uploadFileFilter (mimetype originalname : String) : Except String Unit :=
  if allowedTypes.contains mimetype
      || allowedExtensions.any (fun ext => jsEndsWith (lowerStr originalname) ext) then
    Except.ok ()
  else
    Except.error "Invalid file type. Only JavaScript files are allowed."

/-- multer `fileFilter` of the zip upload. -/
def zipFileFilter (mimetype originalname : String) : Except String Unit :=
  if mimetype == "application/zip" || jsEndsWith (lowerStr originalname) ".zip" then
    Except.ok ()
  else
    Except.error "Invalid file type. Only ZIP files are allowed."

/-- The app-level error middleware of the server entry file: HTTP status
`err.status || 500`, and the message is withheld outside development. -/
def errorMiddleware (errStatus : Option Nat) (errMessage : String)
    (isDevelopment : Bool) : Nat × String :=
  (errStatus.getD 500,
    if isDevelopment then errMessage else "Internal Server Error")

/-- End-to-end response to a file rejected by the upload filter: the filter
error is a plain `Error` without a `status` property, so the middleware sees
no status. `none` means the filter accepted the file. -/
def uploadRejection (mimetype originalname : String)
    (isDevelopment : Bool) : Option (Nat × String) :=
  match uploadFileFilter mimetype originalname with
  | .ok _ => none
  | .error msg => some (errorMiddleware none msg isDevelopment)

/-- End-to-end response to a file rejected by the zip filter. -/
def zipRejection (mimetype originalname : String)
    (isDevelopment : Bool) : Option (Nat × String) :=
  match zipFileFilter mimetype originalname with
  | .ok _ => none
  | .error msg => some (errorMiddleware none msg isDevelopment)

/-- Dummy metrics value for concrete service oracles. -/
def mDummy : Metrics := ⟨0, 0, 0, 1, 3⟩

/-- Dummy token-usage value for concrete service oracles. -/
def uDummy : TokenUsage := ⟨0, 0, 0⟩

/-- Service oracle that fails on every file. -/
def svcFailAll : String → String → RefactorResult :=
  fun _ _ => .failure ⟨"boom", .httpStatus 500⟩

/-- Service oracle that succeeds with text `ok` on content `A` and succeeds
with the empty string on every other content. -/
def svcCE : String → String → RefactorResult :=
  fun content _ =>
    if content = "A" then .success "ok" mDummy uDummy
    else .success "" mDummy uDummy

/-- Rebuilding a string from its character data is the identity. -/
theorem string_mk_data (s : String) : String.mk s.data = s := rfl

/-- Clamping to [1, 5] keeps a value that already lies inside [3, 4]. -/
theorem clamp_bounds_of (s : Rat) (h1 : 3 ≤ s) (h2 : s ≤ 4) :
    3 ≤ min 5 (max 1 s) ∧ min 5 (max 1 s) ≤ 4 := by
  have hm : max 1 s = s := max_eq_right (le_trans (by norm_num) h1)
  have hn : min 5 s = s := min_eq_right (le_trans h2 (by norm_num))
  rw [hm, hn]
  exact ⟨h1, h2⟩

/-- The zip batch loop is the map of per-file choices paired with the
concatenation of the per-file README lines. -/
theorem zipLoop_spec (svc : String → String → RefactorResult) (fs : List FileEntry) :
    zipLoop svc fs =
      (fs.map (fun f => ("src/" ++ f.name, zipChoose svc f)),
        concatAll (fs.map (fun f =>
          "- src/" ++ f.name ++ " (" ++ toString (zipChoose svc f).length ++ " chars)\n"))) := by
  induction fs with
  | nil => rfl
  | cons f t ih => simp [zipLoop, concatAll, ih]

/-- C1: `refactorCode` never lets a failure escape its boundary: every failed
provider call (network error, non-2xx response, timeout) resolves to the
tagged failure result, whose message is the provider-supplied error message
when present and otherwise the transport-level error text, and whose code is
the provider HTTP status when present and otherwise the sentinel
`UNKNOWN_ERROR`. -/
theorem c1_refactor_failure_mapping (code language : String) (settings : Settings)
    (net : String → ApiOutcome) (err : ProviderError)
    (h : net (generateRefactorPrompt code language settings) = .fail err) :
    refactorCode code language settings net =
      .failure ⟨err.dataErrorMessage.getD err.message,
        (err.status.map ErrCode.httpStatus).getD ErrCode.unknownError⟩ := by
  obtain ⟨m, st, dm⟩ := err
  unfold refactorCode
  rw [h]
  cases st <;> rfl

/-- C1 witness: a timeout with no HTTP response is mapped to the transport
error text and the sentinel code. -/
theorem c1_witness :
    refactorCode "x" "javascript" ⟨false, false, false⟩
        (fun _ => .fail ⟨"timeout of 30000ms exceeded", none, none⟩) =
      .failure ⟨"timeout of 30000ms exceeded", .unknownError⟩ :=
  c1_refactor_failure_mapping "x" "javascript" ⟨false, false, false⟩ _
    ⟨"timeout of 30000ms exceeded", none, none⟩ rfl

/-- C2: `calculateMetrics` counts the non-blank lines of both texts, lines
reduced is `max 0 (originalLines - refactoredLines)` and hence never
negative, and the compression ratio is refactored over original lines, with
value 1 when the original has no non-blank line. -/
theorem c2_calculate_metrics (o r : String) :
    (calculateMetrics o r).originalLines = countNonBlankLines o ∧
    (calculateMetrics o r).refactoredLines = countNonBlankLines r ∧
    (calculateMetrics o r).linesReduced =
      max 0 ((countNonBlankLines o : Int) - (countNonBlankLines r : Int)) ∧
    0 ≤ (calculateMetrics o r).linesReduced ∧
    Metrics.compressionRatio (calculateMetrics o r) =
      (if countNonBlankLines o = 0 then (1 : Rat)
        else ((countNonBlankLines r : Rat)) / ((countNonBlankLines o : Rat))) := by
  refine ⟨rfl, rfl, rfl, ?_, ?_⟩
  · show (0 : Int) ≤ max 0 _
    exact le_max_left _ _
  · by_cases h : countNonBlankLines o = 0
    · simp [calculateMetrics, h]
    · simp [calculateMetrics, h, Nat.pos_of_ne_zero h]

/-- C3 counterexample: with original length 5 and refactored length 4 the
refactored length is exactly 80% of the original; the code's strict
comparison grants no +0.2 bonus, while the claimed "at least 80%" formula
does, so the two disagree at this input. -/
theorem c3_counterexample :
    estimateQualityScore "aaaaa" "aaaa" ≠ specQualityScore "aaaaa" "aaaa" := by
  simp only [estimateQualityScore, specQualityScore,
    show strContains "aaaa" "async" = false from rfl,
    show strCount "aaaaa" "//" = 0 from rfl,
    show strCount "aaaa" "//" = 0 from rfl,
    show "aaaaa".length = 5 from rfl,
    show "aaaa".length = 4 from rfl]
  norm_num [min_def, max_def]

/-- C3 amended: the quality score starts at baseline 3.0, adds +0.5 exactly
when the refactored text contains both async and await and the original
contains callback, adds +0.3 exactly when the refactored inline-comment
count exceeds the original one, adds +0.2 exactly when the refactored length
strictly exceeds 80% of the original length, clamped to [1.0, 5.0]. -/
theorem c3_amended_quality_score (o r : String) :
    estimateQualityScore o r = specQualityScoreStrict o r := by
  simp only [estimateQualityScore, specQualityScoreStrict]
  split_ifs <;> norm_num [min_def, max_def]

/-- C4 counterexample: cleanup output of a doubly-fenced reply still begins
with a fence, and a second application strips again: the cleanup step is not
idempotent, so a cleanup output is not always a fixed point. -/
theorem c4_counterexample :
    cleanupStep (cleanupStep "```js\n```js\ncode") ≠
      cleanupStep "```js\n```js\ncode" := by
  decide

/-- C4 amended: every string that is genuinely unfenced — no leading-fence
match, no trailing-fence match at either anchor, and no surrounding
whitespace — is left unchanged by the cleanup step (but a cleanup output
need not be such a string, so the step is not idempotent). -/
theorem c4_unfenced_fixed_point (s : String)
    (h1 : hasLeadFence s.data = false)
    (h2 : hasTrailFenceEnd s.data = false)
    (h3 : hasTrailFencePreNl s.data = false)
    (h4 : jsTrimList s.data = s.data) :
    cleanupStep s = s := by
  simp [cleanupStep, cleanupList, stripLeadFence, stripTrailFence,
    h1, h2, h3, h4, string_mk_data]

/-- C4 witness: an ordinary unfenced string is a fixed point of cleanup. -/
theorem c4_witness : cleanupStep "code" = "code" :=
  c4_unfenced_fixed_point "code" (by decide) (by decide) (by decide) (by decide)

/-- C5 counterexample: the second file's service call succeeds (returning an
empty cleaned code), yet its entry carries a non-null error and the original
content, contradicting the claim that exactly the failing entries carry a
non-null error. -/
theorem c5_counterexample :
    svcCE "B" "javascript" = .success "" mDummy uDummy ∧
    animatedHandler (some [⟨"a.js", "A"⟩, ⟨"b.js", "B"⟩]) svcCE =
      .ok [⟨"a.js", "ok", none⟩, ⟨"b.js", "B", some "Unknown error"⟩] :=
  ⟨rfl, rfl⟩

/-- C5 amended: in the animated batch route every per-file failure keeps the
original content and retains the error message; if every entry carries an
error the response is the server error aggregating all entry messages joined
with a separator; otherwise the response is success with the entry list,
and an entry's error is null exactly when its service call succeeded with a
non-empty refactored code (a failure, or a success with empty code, carries
a non-null error). -/
theorem c5_amended_animated (files : List FileEntry)
    (svc : String → String → RefactorResult) (hne : files ≠ []) :
    (∀ f ∈ files, ∀ e, svc f.content (batchLanguage f.name) = .failure e →
      animatedEntry svc f =
        ⟨f.name, f.content,
          some (if e.message = "" then "Unknown error" else e.message)⟩) ∧
    ((files.map (animatedEntry svc)).all (fun b => b.error.isSome) = true →
      animatedHandler (some files) svc =
        .serverError "All files failed to refactor"
          (String.intercalate "; "
            ((files.map (animatedEntry svc)).map (fun b => b.error.getD "")))) ∧
    ((files.map (animatedEntry svc)).all (fun b => b.error.isSome) = false →
      animatedHandler (some files) svc = .ok (files.map (animatedEntry svc)) ∧
      ∀ f ∈ files,
        ((animatedEntry svc f).error = none ↔
          ∃ rc m tu, svc f.content (batchLanguage f.name) = .success rc m tu ∧
            rc ≠ "")) := by
  obtain ⟨f0, t0, rfl⟩ := List.exists_cons_of_ne_nil hne
  refine ⟨?_, ?_, ?_⟩
  · intro f _ e he
    simp [animatedEntry, he]
  · intro h
    simp only [animatedHandler]
    rw [if_pos h]
  · intro h
    constructor
    · simp only [animatedHandler]
      rw [if_neg (by simp only [h]; decide)]
    · intro f _
      cases hsvc : svc f.content (batchLanguage f.name) with
      | success rc m tu =>
        by_cases hrc : rc = ""
        · subst hrc
          simp [animatedEntry, hsvc]
        · simp [animatedEntry, hsvc, hrc]
      | failure e =>
        simp [animatedEntry, hsvc]

/-- C5 witness: one file with an always-failing service produces the
aggregated server error. -/
theorem c5_witness :
    animatedHandler (some [⟨"a.js", "A"⟩]) svcFailAll =
      .serverError "All files failed to refactor" "boom" := by
  have h := (c5_amended_animated [⟨"a.js", "A"⟩] svcFailAll (by decide)).2.1 (by decide)
  exact h.trans (by decide)

/-- C6: the archive batch route rejects a missing or empty file list with a
client error and no archive; otherwise it derives each entry language from
the lowercased file extension by the batch mapping (react, typescript, json,
else javascript), silently keeps an entry's content on a per-file service
failure, and returns an archive with every file under the src/ prefix plus a
README.md manifest listing each output path with its character count. -/
theorem c6_refactor_zip_route (files : List FileEntry)
    (svc : String → String → RefactorResult) :
    refactorZipHandler none svc = .badRequest "No files provided" ∧
    refactorZipHandler (some []) svc = .badRequest "No files provided" ∧
    (∀ name, batchLanguage name = specBatchLanguage name) ∧
    (∀ f e, svc f.content (batchLanguage f.name) = .failure e →
      zipChoose svc f = f.content) ∧
    (files ≠ [] →
      refactorZipHandler (some files) svc =
        .archive ((files.map (fun f => ("src/" ++ f.name, zipChoose svc f))) ++
          [("README.md",
            readmeHeader ++ concatAll (files.map (fun f =>
              "- src/" ++ f.name ++ " (" ++ toString (zipChoose svc f).length
                ++ " chars)\n")))])) := by
  refine ⟨rfl, rfl, ?_, ?_, ?_⟩
  · intro name
    unfold batchLanguage specBatchLanguage
    by_cases h1 : lowerStr (extnameStr name) = ".jsx" <;>
      by_cases h2 : lowerStr (extnameStr name) = ".tsx" <;>
        by_cases h3 : lowerStr (extnameStr name) = ".ts" <;>
          by_cases h4 : lowerStr (extnameStr name) = ".json" <;>
            simp [h1, h2, h3, h4]
  · intro f e h
    simp [zipChoose, h]
  · intro hne
    obtain ⟨f0, t0, rfl⟩ := List.exists_cons_of_ne_nil hne
    simp [refactorZipHandler, zipLoop_spec]

/-- C6 witness: one .ts file whose service call fails is kept unmodified
under src/ and the README references it with its character count. -/
theorem c6_witness :
    refactorZipHandler (some [⟨"a.ts", "X"⟩]) svcFailAll =
      .archive [("src/a.ts", "X"),
        ("README.md", readmeHeader ++ "- src/a.ts (1 chars)\n")] := by
  have h := (c6_refactor_zip_route [⟨"a.ts", "X"⟩] svcFailAll).2.2.2.2 (by decide)
  exact h.trans (by decide)

/-- C7: the upload route infers react for the .tsx and .jsx suffixes,
typescript for .ts, nodejs for a filename containing server or api, and
javascript otherwise; in particular api-handler.js is inferred as nodejs. -/
theorem c7_upload_language_detection :
    (∀ name, detectUploadLanguage name = specUploadLanguage name) ∧
    detectUploadLanguage "api-handler.js" = "nodejs" := by
  constructor
  · intro name
    unfold detectUploadLanguage specUploadLanguage
    by_cases h1 : jsEndsWith name ".tsx" = true <;>
      by_cases h2 : jsEndsWith name ".jsx" = true <;>
        by_cases h3 : jsEndsWith name ".ts" = true <;>
          by_cases h4 : strContains name "server" = true <;>
            by_cases h5 : strContains name "api" = true <;>
              simp [h1, h2, h3, h4, h5]
  · decide

/-- C8 counterexample: a request whose code field is present but the empty
string, with a valid language, is rejected with the 400 envelope instead of
being delegated to the refactor service. -/
theorem c8_counterexample :
    snippetHandler (some "") (some "javascript") ⟨false, false, false⟩
        (fun _ => .ok "y" uDummy) =
      .badRequest "Code and language are required" := rfl

/-- C8 amended: the single-snippet route rejects every request whose code
or language is absent or empty with a 400 error, and otherwise delegates to
the refactor service, mapping a failure to the error envelope carrying the
service message as details and a success to the success envelope. -/
theorem c8_amended_snippet_route (code language : Option String)
    (settings : Settings) (net : String → ApiOutcome) :
    (code.getD "" = "" ∨ language.getD "" = "" →
      snippetHandler code language settings net =
        .badRequest "Code and language are required") ∧
    (code.getD "" ≠ "" → language.getD "" ≠ "" →
      snippetHandler code language settings net =
        match refactorCode (code.getD "") (language.getD "") settings net with
        | .failure e => .serverError "Refactoring failed" e.message
        | .success rc m tu => .ok rc m tu) := by
  constructor
  · intro h
    unfold snippetHandler
    rw [if_pos h]
  · intro h1 h2
    unfold snippetHandler
    rw [if_neg (by tauto)]

/-- C8 witness: a request without a code field is rejected with 400. -/
theorem c8_witness :
    snippetHandler none (some "javascript") ⟨false, false, false⟩
        (fun _ => .ok "y" uDummy) =
      .badRequest "Code and language are required" :=
  (c8_amended_snippet_route none (some "javascript") ⟨false, false, false⟩
    (fun _ => .ok "y" uDummy)).1 (Or.inl rfl)

/-- C9: actual behavior at a disallowed upload: the filter rejects with the
invalid-file-type message, but the plain Error has no status property, so
the app error middleware responds with HTTP 500 (and Internal Server Error
outside development) rather than a 4xx — likewise for a non-zip file at the
zip endpoint. -/
theorem c9_filetype_rejection_behavior :
    uploadRejection "image/png" "diagram.png" false =
      some (500, "Internal Server Error") ∧
    uploadRejection "image/png" "diagram.png" true =
      some (500, "Invalid file type. Only JavaScript files are allowed.") ∧
    zipRejection "text/plain" "notes.txt" false =
      some (500, "Internal Server Error") := by
  refine ⟨?_, ?_, ?_⟩ <;> decide

/-- C10: the quality score actually lies in the narrower interval [3, 4]:
the bonuses are non-negative and sum to at most 1 over the 3.0 baseline, so
the clamp to [1, 5] never binds. -/
theorem c10_quality_score_in_3_4 (o r : String) :
    3 ≤ estimateQualityScore o r ∧ estimateQualityScore o r ≤ 4 := by
  simp only [estimateQualityScore]
  refine clamp_bounds_of _ ?_ ?_ <;> split_ifs <;> norm_num

end CodeRefactor
